import Mathlib

/-!
Verification of the session/retry core of the book-search chat bot in
`byyt.py`.  The bot class `ZLibraryBot` owns `lib` (the remote handle),
`current_results` (the result cache) and `max_retries`; the definitions
below are shallow embeddings of its methods.  Network nondeterminism
(attempt outcomes of remote calls, freshly created handles, login success)
is supplied by explicit environment records, one field per remote call
site; everything else is translated branch by branch from the source.
-/

/-- `self.max_retries` attribute of `ZLibraryBot` (byyt.py line 40). -/
def max_retries : Nat := 3

/-- Fixed retry delay in seconds: `await asyncio.sleep(2)` (byyt.py line 53). -/
def retry_delay_seconds : Nat := 2

/-- Conversation-state constant `SEARCH_QUERY` (byyt.py line 32). -/
def SEARCH_QUERY : Int := 0

/-- Conversation-state constant `DOWNLOAD_QUERY` (byyt.py line 32). -/
def DOWNLOAD_QUERY : Int := 1

namespace ConversationHandler

/-- `telegram.ext.ConversationHandler.END`. -/
def END : Int := -1

end ConversationHandler

/-- Classification of an exception raised by a wrapped remote call, as made
by the two `except` clauses of `safe_zlib_request` (byyt.py lines 50, 54):
`ReadTimeout`, `NetworkError` and `TimedOut` are retryable, every other
exception is fatal. -/
inductive ErrKind where
  | retryable
  | fatal
deriving DecidableEq, Repr

/-- Outcome of one invocation of the wrapped operation `func`: either a
return value or a raised exception of some kind (the `Nat` identifies the
particular exception object, so "the last error observed" is expressible). -/
inductive AttemptResult (α : Type) where
  | ok (a : α)
  | err (k : ErrKind) (id : Nat)
deriving DecidableEq, Repr

/-- What `safe_zlib_request` itself does at the end: return `func`'s value,
re-raise the last recorded error, or raise the fallback
`Exception("Max retries reached")` (byyt.py line 59, only reachable when the
loop body never ran). -/
inductive ReqResult (α : Type) where
  | ok (a : α)
  | raised (k : ErrKind) (id : Nat)
  | maxRetriesExc
deriving DecidableEq, Repr

/-- The mutable per-bot state read and written by the handlers:
`self.lib` (byyt.py line 37, `None` or an established remote handle,
identified by a `Nat`) and `self.current_results` (line 38, `None` or the
list produced by `process_book_results`). -/
structure BotState (β : Type) where
  lib : Option Nat
  current_results : Option (List β)
deriving DecidableEq, Repr

/-- `login_to_zlib` (byyt.py lines 61-70): it first sets
`self.lib = zlibrary.AsyncZlib()` (a fresh, truthy handle, modelled by
`newHandle`), then runs the login call through `safe_zlib_request`; the
overall outcome of that inner retried call is abstracted into `succeeds`.
On failure the partial handle is discarded (`self.lib = None`) and `False`
is returned; `current_results` is never touched. -/
def login_to_zlib (s : BotState β) (newHandle : Nat) (succeeds : Bool) :
    BotState β × Bool :=
  let s1 : BotState β := { s with lib := some newHandle }
  if succeeds then (s1, true) else ({ s1 with lib := none }, false)

/-- Result of one run of `safe_zlib_request`: the final bot state (the
login guard inside the loop may have changed `lib`), the value returned or
exception raised, the number of 2-second sleeps performed, the number of
times `func` was invoked, and the number of `login_to_zlib` calls made by
the `if not self.lib` guard. -/
structure SafeOut (α β : Type) where
  state : BotState β
  result : ReqResult α
  sleeps : Nat
  attempts : Nat
  logins : Nat
deriving DecidableEq, Repr

/-- The retry loop of `safe_zlib_request` (byyt.py lines 44-59), with the
loop counter `attempt`, the remaining iteration count, and the accumulators
`last_error`, sleep count, attempt count and login count made explicit.
Each iteration first runs the guard `if not self.lib: await
self.login_to_zlib()` (lines 47-48; the returned Bool is ignored by the
source, and `login_to_zlib` never raises because it catches everything),
then calls `func`.  A retryable failure records the error, sleeps 2s and
continues; any other failure records the error and breaks; after the loop
the last error (or the fallback exception) is raised. -/
def safe_zlib_request_go (op : Nat → AttemptResult α) (newHandle : Nat)
    (loginSucceeds : Bool) :
    Nat → Nat → BotState β → Option (ErrKind × Nat) → Nat → Nat → Nat →
    SafeOut α β
  | 0, _, s, lastError, sl, made, lg =>
      { state := s,
        result := match lastError with
          | some (k, id) => ReqResult.raised k id
          | none => ReqResult.maxRetriesExc,
        sleeps := sl, attempts := made, logins := lg }
  | r + 1, attempt, s, _lastError, sl, made, lg =>
      let sLg : BotState β × Nat :=
        match s.lib with
        | some _ => (s, lg)
        | none => ((login_to_zlib s newHandle loginSucceeds).1, lg + 1)
      match op attempt with
      | AttemptResult.ok a =>
          { state := sLg.1, result := ReqResult.ok a,
            sleeps := sl, attempts := made + 1, logins := sLg.2 }
      | AttemptResult.err ErrKind.retryable id =>
          safe_zlib_request_go op newHandle loginSucceeds r (attempt + 1)
            sLg.1 (some (ErrKind.retryable, id)) (sl + 1) (made + 1) sLg.2
      | AttemptResult.err ErrKind.fatal id =>
          { state := sLg.1, result := ReqResult.raised ErrKind.fatal id,
            sleeps := sl, attempts := made + 1, logins := sLg.2 }

/-- `safe_zlib_request` (byyt.py lines 42-59), run with `maxRetries` loop
iterations on the successive attempt outcomes `op 0, op 1, ...` of the
wrapped call. -/
def safe_zlib_request (op : Nat → AttemptResult α) (newHandle : Nat)
    (loginSucceeds : Bool) (s : BotState β) (maxRetries : Nat) : SafeOut α β :=
  safe_zlib_request_go op newHandle loginSucceeds maxRetries 0 s none 0 0 0

/-- One element of a raw `book['authors']` list: either a dict (whose
optional `'author'` key is read by `a.get('author', '')`, byyt.py line 122)
or a plain string.  Calling `.get` on a string element of a dict-headed
list, or joining a dict in the string branch, raises and makes
`process_book_results` drop the record. -/
inductive PyAuthorItem where
  | dict (author : Option String)
  | str (s : String)
deriving DecidableEq, Repr

/-- The raw `book['authors']` value: a list, a single string, or some other
value (which matches neither `isinstance` test and leaves `authors = ""`,
byyt.py lines 120-126). -/
inductive PyAuthors where
  | list (xs : List PyAuthorItem)
  | str (s : String)
  | other
deriving DecidableEq, Repr

/-- The list comprehension `[a.get('author', '') for a in book['authors']]`
(byyt.py line 122): every element must be a dict, otherwise `.get` raises
`AttributeError` (modelled as `none`). -/
def authorDictNames : List PyAuthorItem → Option (List String)
  | [] => some []
  | PyAuthorItem.dict a :: rest =>
      (authorDictNames rest).map (fun l => a.getD "" :: l)
  | PyAuthorItem.str _ :: _ => none

/-- The argument list of `", ".join(book['authors'])` (byyt.py line 124):
every element must be a string, otherwise `join` raises `TypeError`
(modelled as `none`). -/
def authorStrNames : List PyAuthorItem → Option (List String)
  | [] => some []
  | PyAuthorItem.str s :: rest =>
      (authorStrNames rest).map (fun l => s :: l)
  | PyAuthorItem.dict _ :: _ => none

/-- The author-normalization block of `process_book_results` (byyt.py
lines 118-126), producing the `authors` field of a processed book.
`none` for the whole result means an exception was raised (the record is
then skipped by the per-book `except`, lines 141-143).  The dict branch is
taken exactly when the list is non-empty and its first element is a dict
(`if book['authors'] and isinstance(book['authors'][0], dict)`). -/
def normalize_authors : Option PyAuthors → Option String
  | none => some ""
  | some (PyAuthors.list xs) =>
      match xs with
      | PyAuthorItem.dict _ :: _ =>
          (authorDictNames xs).map (String.intercalate ", ")
      | _ => (authorStrNames xs).map (String.intercalate ", ")
  | some (PyAuthors.str s) => some s
  | some PyAuthors.other => some ""

/-- One raw record delivered by `paginator.result`: a dict, with `none`
standing for an absent key.  `fetchRef` identifies the opaque object whose
`.fetch` method the download path calls (byyt.py line 261). -/
structure RawBook where
  id : Option String
  name : Option String
  authors : Option PyAuthors
  year : Option String
  language : Option String
  extension : Option String
  size : Option String
  rating : Option String
  url : Option String
  cover : Option String
  fetchRef : Nat
deriving DecidableEq, Repr

/-- One processed record, as appended by `process_book_results`
(byyt.py lines 128-140). -/
structure Book where
  id : String
  name : String
  authors : String
  year : String
  language : String
  extension : String
  size : String
  rating : String
  url : String
  cover : Option String
  raw : Nat
deriving DecidableEq, Repr

/-- The body of the `for book in results` loop of `process_book_results`
(byyt.py lines 117-143): `none` when the record raised during processing
and was skipped. -/
def process_book (b : RawBook) : Option Book :=
  (normalize_authors b.authors).map fun a =>
    { id := b.id.getD "", name := b.name.getD "Unknown Title", authors := a,
      year := b.year.getD "Unknown Year", language := b.language.getD "Unknown",
      extension := b.extension.getD "", size := b.size.getD "",
      rating := b.rating.getD "N/A", url := b.url.getD "",
      cover := b.cover, raw := b.fetchRef }

/-- `process_book_results` (byyt.py lines 113-144): malformed records are
dropped, the rest are kept in order. -/
def process_book_results (l : List RawBook) : List Book :=
  l.filterMap process_book

/-- The user-visible replies a query handler can send (byyt.py lines
150-176 and 189-215), in order of sending. -/
inductive Reply where
  | searching (q : String)
  | connectFailed
  | noResults
  | foundResults (n : Nat)
  | foundResultsDl (n : Nat)
  | searchFailed
deriving DecidableEq, Repr

/-- The environment of one run of a query handler: the fresh handle and
login outcome consumed by its `login_to_zlib()` call (byyt.py line 152),
the attempt outcomes of `self.lib.search` (line 156) and `paginator.next`
(line 157), and the accumulated `paginator.result` (line 158). -/
structure SearchEnv where
  loginEnv : Nat × Bool
  searchOp : Nat → AttemptResult Unit
  nextOp : Nat → AttemptResult Unit
  rawResults : List RawBook

/-- Result of one run of a query handler: the bot state afterwards, the
value returned to the `ConversationHandler`, the replies sent, and how many
times `login_to_zlib` ran (directly or through the guard inside
`safe_zlib_request`). -/
structure HandlerOut where
  state : BotState Book
  ret : Int
  replies : List Reply
  logins : Nat
deriving Repr

/-- `handle_search_query` (byyt.py lines 146-183).  It always begins with
an unconditional `login_to_zlib()` call; on login failure it reports a
connection failure and ends.  An exception escaping either
`safe_zlib_request` call is caught by the enclosing `try` and reported as
a search failure.  Otherwise `self.current_results` is assigned the
processed results (line 159) before the emptiness test (line 161), and
every branch returns `ConversationHandler.END`. -/
def handle_search_query (s : BotState Book) (env : SearchEnv) (q : String) :
    HandlerOut :=
  let login := login_to_zlib s env.loginEnv.1 env.loginEnv.2
  if login.2 then
    let r1 := safe_zlib_request env.searchOp env.loginEnv.1 env.loginEnv.2
      login.1 max_retries
    match r1.result with
    | ReqResult.ok _ =>
        let r2 := safe_zlib_request env.nextOp env.loginEnv.1 env.loginEnv.2
          r1.state max_retries
        match r2.result with
        | ReqResult.ok _ =>
            let processed := process_book_results env.rawResults
            let s2 : BotState Book :=
              { r2.state with current_results := some processed }
            if processed.isEmpty then
              { state := s2, ret := ConversationHandler.END,
                replies := [Reply.searching q, Reply.noResults],
                logins := 1 + r1.logins + r2.logins }
            else
              { state := s2, ret := ConversationHandler.END,
                replies := [Reply.searching q,
                  Reply.foundResults processed.length],
                logins := 1 + r1.logins + r2.logins }
        | _ =>
            { state := r2.state, ret := ConversationHandler.END,
              replies := [Reply.searching q, Reply.searchFailed],
              logins := 1 + r1.logins + r2.logins }
    | _ =>
        { state := r1.state, ret := ConversationHandler.END,
          replies := [Reply.searching q, Reply.searchFailed],
          logins := 1 + r1.logins }
  else
    { state := login.1, ret := ConversationHandler.END,
      replies := [Reply.searching q, Reply.connectFailed], logins := 1 }

/-- `handle_download_query` (byyt.py lines 185-222): identical control flow
to `handle_search_query`, with download-styled buttons and message. -/
def handle_download_query (s : BotState Book) (env : SearchEnv) (q : String) :
    HandlerOut :=
  let login := login_to_zlib s env.loginEnv.1 env.loginEnv.2
  if login.2 then
    let r1 := safe_zlib_request env.searchOp env.loginEnv.1 env.loginEnv.2
      login.1 max_retries
    match r1.result with
    | ReqResult.ok _ =>
        let r2 := safe_zlib_request env.nextOp env.loginEnv.1 env.loginEnv.2
          r1.state max_retries
        match r2.result with
        | ReqResult.ok _ =>
            let processed := process_book_results env.rawResults
            let s2 : BotState Book :=
              { r2.state with current_results := some processed }
            if processed.isEmpty then
              { state := s2, ret := ConversationHandler.END,
                replies := [Reply.searching q, Reply.noResults],
                logins := 1 + r1.logins + r2.logins }
            else
              { state := s2, ret := ConversationHandler.END,
                replies := [Reply.searching q,
                  Reply.foundResultsDl processed.length],
                logins := 1 + r1.logins + r2.logins }
        | _ =>
            { state := r2.state, ret := ConversationHandler.END,
              replies := [Reply.searching q, Reply.searchFailed],
              logins := 1 + r1.logins + r2.logins }
    | _ =>
        { state := r1.state, ret := ConversationHandler.END,
          replies := [Reply.searching q, Reply.searchFailed],
          logins := 1 + r1.logins }
  else
    { state := login.1, ret := ConversationHandler.END,
      replies := [Reply.searching q, Reply.connectFailed], logins := 1 }

/-- The full record returned by `book['raw'].fetch()` (byyt.py line 261);
only its `'download_url'` key is read, with default `''` (line 262). -/
structure FullBook where
  download_url : Option String
deriving DecidableEq, Repr

/-- Environment of one `button_callback` run: the fresh handle and login
outcome for a possible guard login inside `safe_zlib_request`, and the
attempt outcomes of `book['raw'].fetch`. -/
structure ButtonEnv where
  loginEnv : Nat × Bool
  fetchOp : Nat → AttemptResult FullBook

/-- What one `button_callback` run leaves behind as a user-visible outcome
(byyt.py lines 224-282). -/
inductive CallbackOutcome where
  | sessionExpired
  | described (b : Book)
  | downloadLink (b : Book) (url : String)
  | downloadNoLink (b : Book)
  | downloadFailed (b : Book)
  | ignored
  | errorCaught
deriving DecidableEq, Repr

/-- Python list indexing `self.current_results[idx]` (byyt.py line 236):
a non-negative index reads position `i`, a negative index reads position
`len + i`, anything else raises `IndexError` (modelled as `none`). -/
def pyIndex (l : List α) (i : Int) : Option α :=
  if 0 ≤ i then l.get? i.toNat
  else
    let j := i + l.length
    if 0 ≤ j then l.get? j.toNat else none

/-- `button_callback` (byyt.py lines 224-282), on an already-parsed payload
`action, idx` (`query.data.split("_")` / `int(idx)`, lines 234-235; a
payload whose parse raises is caught by the same outer `except` as an
`IndexError` and yields the caught-error reply, line 280).  The falsiness
test `if not self.current_results` treats both `None` and `[]` as expired.
Indexing happens before the action is inspected; an `IndexError` is caught
by the outer `except`.  The download branch runs `fetch` through
`safe_zlib_request`, whose own `try` turns any failure into the
download-failed reply. -/
def button_callback (s : BotState Book) (env : ButtonEnv) (action : String)
    (idx : Int) : BotState Book × CallbackOutcome :=
  match s.current_results with
  | none => (s, CallbackOutcome.sessionExpired)
  | some results =>
    if results.isEmpty then (s, CallbackOutcome.sessionExpired)
    else
      match pyIndex results idx with
      | none => (s, CallbackOutcome.errorCaught)
      | some book =>
        if action = "book" then (s, CallbackOutcome.described book)
        else if action = "dl" then
          let r := safe_zlib_request env.fetchOp env.loginEnv.1 env.loginEnv.2
            s max_retries
          match r.result with
          | ReqResult.ok fb =>
              if fb.download_url.getD "" ≠ "" then
                (r.state, CallbackOutcome.downloadLink book (fb.download_url.getD ""))
              else (r.state, CallbackOutcome.downloadNoLink book)
          | _ => (r.state, CallbackOutcome.downloadFailed book)
        else (s, CallbackOutcome.ignored)

/-- The whole deployed program: one `ZLibraryBot` instance (byyt.py line
350) whose fields every handler reads and writes, and the per-chat
conversation states kept by the two `ConversationHandler`s (keyed by the
chat the event came from). -/
structure System where
  bot : BotState Book
  conv : Nat → Int

/-- Dispatch of a text message from session `sid` while that session's
conversation is in `SEARCH_QUERY`: `handle_search_query` runs against the
single shared bot instance, and only session `sid`'s conversation state is
replaced by the handler's return value. -/
def dispatch_search_text (sys : System) (sid : Nat) (env : SearchEnv)
    (q : String) : System × List Reply :=
  let out := handle_search_query sys.bot env q
  ({ bot := out.state,
     conv := fun j => if j = sid then out.ret else sys.conv j },
   out.replies)

/-- A raw record carrying only a title and a fetch reference, used as a
concrete test input. -/
def rawMk (n : String) (r : Nat) : RawBook :=
  { id := none, name := some n, authors := none, year := none,
    language := none, extension := none, size := none, rating := none,
    url := none, cover := none, fetchRef := r }

/-- The processed record `process_book` produces from `rawMk n r`. -/
def bookMk (n : String) (r : Nat) : Book :=
  { id := "", name := n, authors := "", year := "Unknown Year",
    language := "Unknown", extension := "", size := "", rating := "N/A",
    url := "", cover := none, raw := r }

/-- Concrete processed record used as test input. -/
def bookA : Book := bookMk "A" 1

/-- Concrete processed record used as test input. -/
def bookB : Book := bookMk "B" 2

/-- Concrete button environment: login would succeed and `fetch` returns a
record with a download URL on the first attempt. -/
def benv0 : ButtonEnv :=
  { loginEnv := (9, true),
    fetchOp := fun _ => AttemptResult.ok ⟨some "u"⟩ }

/-- Concrete search environment: login succeeds, `search` and `next`
succeed on their first attempts, and the remote returns zero records. -/
def envEmpty : SearchEnv :=
  { loginEnv := (2, true), searchOp := fun _ => AttemptResult.ok (),
    nextOp := fun _ => AttemptResult.ok (), rawResults := [] }

/-- Concrete search environment: login succeeds with fresh handle 8, both
remote calls succeed, and the remote returns one record titled "B". -/
def envB : SearchEnv :=
  { loginEnv := (8, true), searchOp := fun _ => AttemptResult.ok (),
    nextOp := fun _ => AttemptResult.ok (), rawResults := [rawMk "B" 2] }

/-- Concrete search environment in which the login fails. -/
def envLoginFail : SearchEnv :=
  { loginEnv := (4, false), searchOp := fun _ => AttemptResult.ok (),
    nextOp := fun _ => AttemptResult.ok (), rawResults := [rawMk "B" 2] }

/-- Concrete system state: one bot shared by every session, with an
established handle and a cached one-record result set, and no conversation
pending in any session. -/
def sys0 : System :=
  { bot := ⟨some 1, some [bookA]⟩, conv := fun _ => ConversationHandler.END }

/-! ### Helper lemmas about the retry loop -/

theorem login_to_zlib_keeps_results (s : BotState β) (nh : Nat) (b : Bool) :
    (login_to_zlib s nh b).1.current_results = s.current_results := by
  cases b <;> rfl

theorem safe_go_keeps_results (op : Nat → AttemptResult α) (nh : Nat)
    (ls : Bool) :
    ∀ (r a : Nat) (s : BotState β) (le : Option (ErrKind × Nat))
      (sl made lg : Nat),
      (safe_zlib_request_go op nh ls r a s le sl made lg).state.current_results
        = s.current_results := by
  intro r
  induction r with
  | zero => intro a s le sl made lg; rfl
  | succ r ih =>
    intro a s le sl made lg
    rw [safe_zlib_request_go]
    cases hlib : s.lib with
    | some h =>
      cases op a with
      | ok v => simp [hlib]
      | err k id =>
        cases k with
        | retryable => simpa [hlib] using ih (a + 1) s _ (sl + 1) (made + 1) lg
        | fatal => simp [hlib]
    | none =>
      cases op a with
      | ok v => simp [hlib, login_to_zlib_keeps_results]
      | err k id =>
        cases k with
        | retryable =>
          simpa [hlib, login_to_zlib_keeps_results] using
            ih (a + 1) (login_to_zlib s nh ls).1 _ (sl + 1) (made + 1) (lg + 1)
        | fatal => simp [hlib, login_to_zlib_keeps_results]

theorem safe_keeps_results (op : Nat → AttemptResult α) (nh : Nat) (ls : Bool)
    (s : BotState β) (n : Nat) :
    (safe_zlib_request op nh ls s n).state.current_results
      = s.current_results :=
  safe_go_keeps_results op nh ls n 0 s none 0 0 0

theorem safe_go_lib_some (op : Nat → AttemptResult α) (nh : Nat) (ls : Bool)
    (h : Nat) :
    ∀ (r a : Nat) (s : BotState β) (le : Option (ErrKind × Nat))
      (sl made lg : Nat), s.lib = some h →
      (safe_zlib_request_go op nh ls r a s le sl made lg).state = s ∧
      (safe_zlib_request_go op nh ls r a s le sl made lg).logins = lg := by
  intro r
  induction r with
  | zero => intro a s le sl made lg _; exact ⟨rfl, rfl⟩
  | succ r ih =>
    intro a s le sl made lg hlib
    rw [safe_zlib_request_go]
    cases op a with
    | ok v => simp [hlib]
    | err k id =>
      cases k with
      | retryable =>
        simpa [hlib] using ih (a + 1) s _ (sl + 1) (made + 1) lg hlib
      | fatal => simp [hlib]

theorem safe_lib_some (op : Nat → AttemptResult α) (nh : Nat) (ls : Bool)
    (s : BotState β) (n h : Nat) (hlib : s.lib = some h) :
    (safe_zlib_request op nh ls s n).state = s ∧
    (safe_zlib_request op nh ls s n).logins = 0 :=
  safe_go_lib_some op nh ls h n 0 s none 0 0 0 hlib

theorem safe_first_ok (op : Nat → AttemptResult α) (nh : Nat) (ls : Bool)
    (s : BotState β) (n h : Nat) (a : α) (hlib : s.lib = some h)
    (hop : op 0 = AttemptResult.ok a) (hn : 0 < n) :
    safe_zlib_request op nh ls s n
      = { state := s, result := ReqResult.ok a, sleeps := 0, attempts := 1,
          logins := 0 } := by
  cases n with
  | zero => omega
  | succ m => simp [safe_zlib_request, safe_zlib_request_go, hlib, hop]

theorem safe_go_all_retryable (op : Nat → AttemptResult α) (e : Nat → Nat)
    (nh : Nat) (ls : Bool) :
    ∀ (r a : Nat) (s : BotState β) (le : Option (ErrKind × Nat))
      (sl made lg : Nat),
      (∀ i, i ≤ r → op (a + i) = AttemptResult.err ErrKind.retryable (e (a + i))) →
      (safe_zlib_request_go op nh ls (r + 1) a s le sl made lg).result
          = ReqResult.raised ErrKind.retryable (e (a + r)) ∧
      (safe_zlib_request_go op nh ls (r + 1) a s le sl made lg).sleeps
          = sl + (r + 1) ∧
      (safe_zlib_request_go op nh ls (r + 1) a s le sl made lg).attempts
          = made + (r + 1) := by
  intro r
  induction r with
  | zero =>
    intro a s le sl made lg hop
    have h0 := hop 0 (Nat.le_refl 0)
    rw [safe_zlib_request_go]
    simp only [Nat.add_zero] at h0
    simp [h0, safe_zlib_request_go]
  | succ r ih =>
    intro a s le sl made lg hop
    have h0 := hop 0 (Nat.zero_le _)
    simp only [Nat.add_zero] at h0
    rw [safe_zlib_request_go]
    simp only [h0]
    have hop' : ∀ i, i ≤ r →
        op (a + 1 + i) = AttemptResult.err ErrKind.retryable (e (a + 1 + i)) := by
      intro i hi
      have := hop (i + 1) (by omega)
      simpa [Nat.add_assoc, Nat.add_comm 1 i] using this
    have := ih (a + 1)
      (match s.lib with
       | some _ => (s, lg)
       | none => ((login_to_zlib s nh ls).1, lg + 1)).1
      (some (ErrKind.retryable, e a)) (sl + 1) (made + 1)
      (match s.lib with
       | some _ => (s, lg)
       | none => ((login_to_zlib s nh ls).1, lg + 1)).2 hop'
    refine ⟨?_, ?_, ?_⟩
    · rw [this.1]; congr 2; omega
    · rw [this.2.1]; omega
    · rw [this.2.2]; omega

/-- Case analysis of `handle_search_query`: its output always has one of
four shapes — connection failure, search failure, empty results, non-empty
results — and in every shape the conversation returns `END` and exactly one
`login_to_zlib` call was made. -/
theorem handle_search_query_shape (s : BotState Book) (env : SearchEnv)
    (q : String) :
    handle_search_query s env q
        = ⟨{ s with lib := none }, ConversationHandler.END,
            [Reply.searching q, Reply.connectFailed], 1⟩ ∨
    handle_search_query s env q
        = ⟨{ s with lib := some env.loginEnv.1 }, ConversationHandler.END,
            [Reply.searching q, Reply.searchFailed], 1⟩ ∨
    handle_search_query s env q
        = ⟨⟨some env.loginEnv.1, some (process_book_results env.rawResults)⟩,
            ConversationHandler.END, [Reply.searching q, Reply.noResults], 1⟩ ∨
    handle_search_query s env q
        = ⟨⟨some env.loginEnv.1, some (process_book_results env.rawResults)⟩,
            ConversationHandler.END,
            [Reply.searching q,
              Reply.foundResults (process_book_results env.rawResults).length],
            1⟩ := by
  cases hlv : env.loginEnv.2 with
  | false => left; simp [handle_search_query, login_to_zlib, hlv]
  | true =>
    right
    have hL : login_to_zlib s env.loginEnv.1 env.loginEnv.2
        = ({ s with lib := some env.loginEnv.1 }, true) := by
      rw [hlv]; rfl
    obtain ⟨hst1, hlg1⟩ := safe_lib_some env.searchOp env.loginEnv.1
      env.loginEnv.2 { s with lib := some env.loginEnv.1 } max_retries
      env.loginEnv.1 rfl
    cases hr1 : (safe_zlib_request env.searchOp env.loginEnv.1 env.loginEnv.2
        { s with lib := some env.loginEnv.1 } max_retries).result with
    | raised k id => left; simp [handle_search_query, hL, hr1, hst1, hlg1]
    | maxRetriesExc => left; simp [handle_search_query, hL, hr1, hst1, hlg1]
    | ok u =>
      obtain ⟨hst2, hlg2⟩ := safe_lib_some env.nextOp env.loginEnv.1
        env.loginEnv.2 { s with lib := some env.loginEnv.1 } max_retries
        env.loginEnv.1 rfl
      cases hr2 : (safe_zlib_request env.nextOp env.loginEnv.1 env.loginEnv.2
          { s with lib := some env.loginEnv.1 } max_retries).result with
      | raised k id =>
        left; simp [handle_search_query, hL, hr1, hst1, hlg1, hr2, hst2, hlg2]
      | maxRetriesExc =>
        left; simp [handle_search_query, hL, hr1, hst1, hlg1, hr2, hst2, hlg2]
      | ok v =>
        by_cases hE : (process_book_results env.rawResults).isEmpty
        · right; left
          simp [handle_search_query, hL, hr1, hst1, hlg1, hr2, hst2, hlg2, hE]
        · right; right
          simp [handle_search_query, hL, hr1, hst1, hlg1, hr2, hst2, hlg2, hE]

/-- Case analysis of `handle_download_query`, identical to
`handle_search_query_shape` except for the non-empty-results reply. -/
theorem handle_download_query_shape (s : BotState Book) (env : SearchEnv)
    (q : String) :
    handle_download_query s env q
        = ⟨{ s with lib := none }, ConversationHandler.END,
            [Reply.searching q, Reply.connectFailed], 1⟩ ∨
    handle_download_query s env q
        = ⟨{ s with lib := some env.loginEnv.1 }, ConversationHandler.END,
            [Reply.searching q, Reply.searchFailed], 1⟩ ∨
    handle_download_query s env q
        = ⟨⟨some env.loginEnv.1, some (process_book_results env.rawResults)⟩,
            ConversationHandler.END, [Reply.searching q, Reply.noResults], 1⟩ ∨
    handle_download_query s env q
        = ⟨⟨some env.loginEnv.1, some (process_book_results env.rawResults)⟩,
            ConversationHandler.END,
            [Reply.searching q,
              Reply.foundResultsDl (process_book_results env.rawResults).length],
            1⟩ := by
  cases hlv : env.loginEnv.2 with
  | false => left; simp [handle_download_query, login_to_zlib, hlv]
  | true =>
    right
    have hL : login_to_zlib s env.loginEnv.1 env.loginEnv.2
        = ({ s with lib := some env.loginEnv.1 }, true) := by
      rw [hlv]; rfl
    obtain ⟨hst1, hlg1⟩ := safe_lib_some env.searchOp env.loginEnv.1
      env.loginEnv.2 { s with lib := some env.loginEnv.1 } max_retries
      env.loginEnv.1 rfl
    cases hr1 : (safe_zlib_request env.searchOp env.loginEnv.1 env.loginEnv.2
        { s with lib := some env.loginEnv.1 } max_retries).result with
    | raised k id => left; simp [handle_download_query, hL, hr1, hst1, hlg1]
    | maxRetriesExc => left; simp [handle_download_query, hL, hr1, hst1, hlg1]
    | ok u =>
      obtain ⟨hst2, hlg2⟩ := safe_lib_some env.nextOp env.loginEnv.1
        env.loginEnv.2 { s with lib := some env.loginEnv.1 } max_retries
        env.loginEnv.1 rfl
      cases hr2 : (safe_zlib_request env.nextOp env.loginEnv.1 env.loginEnv.2
          { s with lib := some env.loginEnv.1 } max_retries).result with
      | raised k id =>
        left; simp [handle_download_query, hL, hr1, hst1, hlg1, hr2, hst2, hlg2]
      | maxRetriesExc =>
        left; simp [handle_download_query, hL, hr1, hst1, hlg1, hr2, hst2, hlg2]
      | ok v =>
        by_cases hE : (process_book_results env.rawResults).isEmpty
        · right; left
          simp [handle_download_query, hL, hr1, hst1, hlg1, hr2, hst2, hlg2, hE]
        · right; right
          simp [handle_download_query, hL, hr1, hst1, hlg1, hr2, hst2, hlg2, hE]

/-- When the login and the first attempts of both remote calls succeed, a
search handler run ends with the cache replaced by the processed results
and `END` returned. -/
theorem handle_search_query_success (s : BotState Book) (env : SearchEnv)
    (q : String) (hl : env.loginEnv.2 = true)
    (hs : env.searchOp 0 = AttemptResult.ok ())
    (hn : env.nextOp 0 = AttemptResult.ok ()) :
    handle_search_query s env q
      = ⟨⟨some env.loginEnv.1, some (process_book_results env.rawResults)⟩,
          ConversationHandler.END,
          [Reply.searching q,
            if (process_book_results env.rawResults).isEmpty then Reply.noResults
            else Reply.foundResults (process_book_results env.rawResults).length],
          1⟩ := by
  have hL : login_to_zlib s env.loginEnv.1 env.loginEnv.2
      = ({ s with lib := some env.loginEnv.1 }, true) := by rw [hl]; rfl
  have h1 := safe_first_ok env.searchOp env.loginEnv.1 env.loginEnv.2
    { s with lib := some env.loginEnv.1 } max_retries env.loginEnv.1 () rfl hs
    (by decide)
  have h2 := safe_first_ok env.nextOp env.loginEnv.1 env.loginEnv.2
    { s with lib := some env.loginEnv.1 } max_retries env.loginEnv.1 () rfl hn
    (by decide)
  by_cases hE : (process_book_results env.rawResults).isEmpty <;>
    simp [handle_search_query, hL, h1, h2, hE]

/-- Analogue of `handle_search_query_success` for the download handler. -/
theorem handle_download_query_success (s : BotState Book) (env : SearchEnv)
    (q : String) (hl : env.loginEnv.2 = true)
    (hs : env.searchOp 0 = AttemptResult.ok ())
    (hn : env.nextOp 0 = AttemptResult.ok ()) :
    handle_download_query s env q
      = ⟨⟨some env.loginEnv.1, some (process_book_results env.rawResults)⟩,
          ConversationHandler.END,
          [Reply.searching q,
            if (process_book_results env.rawResults).isEmpty then Reply.noResults
            else Reply.foundResultsDl (process_book_results env.rawResults).length],
          1⟩ := by
  have hL : login_to_zlib s env.loginEnv.1 env.loginEnv.2
      = ({ s with lib := some env.loginEnv.1 }, true) := by rw [hl]; rfl
  have h1 := safe_first_ok env.searchOp env.loginEnv.1 env.loginEnv.2
    { s with lib := some env.loginEnv.1 } max_retries env.loginEnv.1 () rfl hs
    (by decide)
  have h2 := safe_first_ok env.nextOp env.loginEnv.1 env.loginEnv.2
    { s with lib := some env.loginEnv.1 } max_retries env.loginEnv.1 () rfl hn
    (by decide)
  by_cases hE : (process_book_results env.rawResults).isEmpty <;>
    simp [handle_download_query, hL, h1, h2, hE]

theorem pyIndex_eq_none_iff (l : List α) (i : Int) :
    pyIndex l i = none ↔ (i < -(l.length : Int) ∨ (l.length : Int) ≤ i) := by
  unfold pyIndex
  by_cases h0 : (0 : Int) ≤ i
  · rw [if_pos h0, List.get?_eq_none]
    omega
  · rw [if_neg h0]
    by_cases hj : (0 : Int) ≤ i + l.length
    · rw [if_pos hj, List.get?_eq_none]
      omega
    · rw [if_neg hj]
      simp only [true_iff]
      omega

theorem pyIndex_exists_of_in_range (l : List α) (i : Int)
    (h : -(l.length : Int) ≤ i ∧ i < (l.length : Int)) :
    ∃ b, pyIndex l i = some b := by
  have hne : pyIndex l i ≠ none := by
    intro hnone
    rw [pyIndex_eq_none_iff] at hnone
    omega
  cases hpi : pyIndex l i with
  | none => exact absurd hpi hne
  | some b => exact ⟨b, rfl⟩

theorem safe_all_retryable (op : Nat → AttemptResult α) (e : Nat → Nat)
    (nh : Nat) (ls : Bool) (s : BotState β) (n : Nat) (hn : 0 < n)
    (hop : ∀ i, i < n → op i = AttemptResult.err ErrKind.retryable (e i)) :
    (safe_zlib_request op nh ls s n).result
        = ReqResult.raised ErrKind.retryable (e (n - 1)) ∧
    (safe_zlib_request op nh ls s n).sleeps = n ∧
    (safe_zlib_request op nh ls s n).attempts = n := by
  cases n with
  | zero => omega
  | succ r =>
    have := safe_go_all_retryable op e nh ls r 0 s none 0 0 0
      (fun i hi => by simpa using hop i (by omega))
    simpa [safe_zlib_request] using this

/-- The outcome a describe ("book") selection produces depends only on the
cached result set, not on the handle or the button environment. -/
theorem button_described_eq_of_results_eq (s1 s2 : BotState Book)
    (benv1 benv2 : ButtonEnv) (i : Int)
    (h : s1.current_results = s2.current_results) :
    (button_callback s1 benv1 "book" i).2 = (button_callback s2 benv2 "book" i).2 := by
  unfold button_callback
  rw [h]
  cases s2.current_results with
  | none => rfl
  | some R =>
    cases hpi : pyIndex R i <;> by_cases hE : R.isEmpty <;> simp [hE, hpi]

/-! ### Claim theorems -/

/-- C1 counterexample: with the default `max_retries = 3` and an operation
whose three attempts all fail with transient errors, the executor performs
3 delays, not `maxAttempts - 1 = 2` — it also sleeps after the final failed
attempt. -/
theorem C1_counterexample :
    (safe_zlib_request (α := Unit) (β := Book)
        (fun i => AttemptResult.err ErrKind.retryable i) 5 true
        ⟨some 1, none⟩ max_retries).sleeps = 3 ∧
    (safe_zlib_request (α := Unit) (β := Book)
        (fun i => AttemptResult.err ErrKind.retryable i) 5 true
        ⟨some 1, none⟩ max_retries).sleeps ≠ max_retries - 1 := by
  constructor
  · decide
  · decide

/-- C1 (amended): when all `maxAttempts` (default 3) consecutive attempts
fail with transient errors, the executor propagates exactly one final
transient failure — the last one observed — having invoked the operation
`maxAttempts` times and waited the fixed 2-second delay `maxAttempts`
times: once after every failed attempt, including the final one (not
`maxAttempts - 1` times between attempts). -/
theorem C1_exhausted_retries (op : Nat → AttemptResult α) (e : Nat → Nat)
    (nh : Nat) (ls : Bool) (s : BotState Book) (n : Nat) (hn : 0 < n)
    (hop : ∀ i, i < n → op i = AttemptResult.err ErrKind.retryable (e i)) :
    (safe_zlib_request op nh ls s n).result
        = ReqResult.raised ErrKind.retryable (e (n - 1)) ∧
    (safe_zlib_request op nh ls s n).sleeps = n ∧
    (safe_zlib_request op nh ls s n).attempts = n :=
  safe_all_retryable op e nh ls s n hn hop

/-- Witness for `C1_exhausted_retries` at the default three attempts. -/
theorem C1_exhausted_retries_witness :
    (safe_zlib_request (α := Unit) (β := Book)
        (fun i => AttemptResult.err ErrKind.retryable (10 * i)) 5 true
        ⟨some 1, none⟩ max_retries).result
        = ReqResult.raised ErrKind.retryable 20 ∧
    (safe_zlib_request (α := Unit) (β := Book)
        (fun i => AttemptResult.err ErrKind.retryable (10 * i)) 5 true
        ⟨some 1, none⟩ max_retries).sleeps = 3 ∧
    (safe_zlib_request (α := Unit) (β := Book)
        (fun i => AttemptResult.err ErrKind.retryable (10 * i)) 5 true
        ⟨some 1, none⟩ max_retries).attempts = 3 :=
  C1_exhausted_retries (fun i => AttemptResult.err ErrKind.retryable (10 * i))
    (fun i => 10 * i) 5 true ⟨some 1, none⟩ max_retries (by decide)
    (fun i _ => rfl)

/-- C5: the normalized authors text is the dict entries' author fields
joined with ", " for a list of dicts, the strings joined with ", " for a
list of strings, the string itself for a single string, and "" when the
`authors` key is absent. -/
theorem C5_author_normalization (es : List (Option String))
    (ns : List String) (a : String) :
    normalize_authors (some (PyAuthors.list (es.map PyAuthorItem.dict)))
        = some (String.intercalate ", " (es.map (fun o => o.getD ""))) ∧
    normalize_authors (some (PyAuthors.list (ns.map PyAuthorItem.str)))
        = some (String.intercalate ", " ns) ∧
    normalize_authors (some (PyAuthors.str a)) = some a ∧
    normalize_authors (none : Option PyAuthors) = some "" := by
  have hdict : ∀ l : List (Option String),
      authorDictNames (l.map PyAuthorItem.dict)
        = some (l.map (fun o => o.getD "")) := by
    intro l
    induction l with
    | nil => rfl
    | cons o l ih => simp [authorDictNames, ih]
  have hstr : ∀ l : List String,
      authorStrNames (l.map PyAuthorItem.str) = some l := by
    intro l
    induction l with
    | nil => rfl
    | cons x l ih => simp [authorStrNames, ih]
  refine ⟨?_, ?_, rfl, rfl⟩
  · cases es with
    | nil => rfl
    | cons o es =>
      have hd := hdict (o :: es)
      simp only [List.map_cons] at hd
      simp [normalize_authors, hd]
  · cases ns with
    | nil => rfl
    | cons x ns =>
      have hx := hstr (x :: ns)
      simp only [List.map_cons] at hx
      simp [normalize_authors, hx]

/-- C6: every text message handled while awaiting a search or download
query returns the conversation to `END` (idle), whatever the outcome:
connection failure, remote error, empty results or success. -/
theorem C6_handlers_return_to_idle (s : BotState Book) (env : SearchEnv)
    (q : String) :
    (handle_search_query s env q).ret = ConversationHandler.END ∧
    (handle_download_query s env q).ret = ConversationHandler.END := by
  constructor
  · rcases handle_search_query_shape s env q with h | h | h | h <;> rw [h]
  · rcases handle_download_query_shape s env q with h | h | h | h <;> rw [h]

/-- C8: an operation whose first attempt fails with a non-retryable error
makes the executor propagate that same error immediately: no delay, no
further attempt. -/
theorem C8_fatal_aborts_immediately (op : Nat → AttemptResult α) (id : Nat)
    (nh : Nat) (ls : Bool) (s : BotState Book) (n : Nat) (hn : 0 < n)
    (hop : op 0 = AttemptResult.err ErrKind.fatal id) :
    (safe_zlib_request op nh ls s n).result = ReqResult.raised ErrKind.fatal id ∧
    (safe_zlib_request op nh ls s n).sleeps = 0 ∧
    (safe_zlib_request op nh ls s n).attempts = 1 := by
  cases n with
  | zero => omega
  | succ m =>
    refine ⟨?_, ?_, ?_⟩ <;> simp [safe_zlib_request, safe_zlib_request_go, hop]

/-- Witness for `C8_fatal_aborts_immediately`. -/
theorem C8_fatal_aborts_immediately_witness :
    (safe_zlib_request (α := Unit) (β := Book)
        (fun _ => AttemptResult.err ErrKind.fatal 7) 5 true
        ⟨some 1, none⟩ max_retries).result = ReqResult.raised ErrKind.fatal 7 ∧
    (safe_zlib_request (α := Unit) (β := Book)
        (fun _ => AttemptResult.err ErrKind.fatal 7) 5 true
        ⟨some 1, none⟩ max_retries).sleeps = 0 ∧
    (safe_zlib_request (α := Unit) (β := Book)
        (fun _ => AttemptResult.err ErrKind.fatal 7) 5 true
        ⟨some 1, none⟩ max_retries).attempts = 1 :=
  C8_fatal_aborts_immediately (fun _ => AttemptResult.err ErrKind.fatal 7) 7 5
    true ⟨some 1, none⟩ max_retries (by decide) rfl

/-- C9: a button selection made while the cached result set is absent
(`None`) or empty (`[]`) yields the session-expired outcome, touches no
record and leaves the state unchanged. -/
theorem C9_session_expired (s : BotState Book) (env : ButtonEnv) (a : String)
    (i : Int)
    (h : s.current_results = none ∨ s.current_results = some []) :
    button_callback s env a i = (s, CallbackOutcome.sessionExpired) := by
  rcases h with h | h <;> simp [button_callback, h, List.isEmpty]

/-- Witness for `C9_session_expired`. -/
theorem C9_session_expired_witness :
    button_callback ⟨none, none⟩ benv0 "dl" 0
      = (⟨none, none⟩, CallbackOutcome.sessionExpired) :=
  C9_session_expired ⟨none, none⟩ benv0 "dl" 0 (Or.inl rfl)

/-- C2 counterexample: with two cached records, the button index `-1` is
outside `[0, len)` yet the describe action succeeds, rendering the LAST
record — Python's negative indexing, not the claimed `InvalidSelection`. -/
theorem C2_counterexample :
    (button_callback ⟨some 1, some [bookA, bookB]⟩ benv0 "book" (-1)).2
        = CallbackOutcome.described bookB ∧
    ¬ (0 ≤ (-1 : Int)) := by
  constructor
  · decide
  · decide

/-- C2 (amended): on a non-empty cached result set of length `len`, the
describe and download selection actions resolve a record if and only if
`-len ≤ i < len` (a negative `i` resolving position `len + i`, Python list
indexing); any `i` outside that range produces the defined caught-error
outcome for either action — never a crash. -/
theorem C2_selection_range (l : Option Nat) (R : List Book) (env : ButtonEnv)
    (i : Int) (hR : R ≠ []) :
    ((-(R.length : Int) ≤ i ∧ i < (R.length : Int)) →
      ∃ b, pyIndex R i = some b ∧
        (button_callback ⟨l, some R⟩ env "book" i).2
            = CallbackOutcome.described b ∧
        ((button_callback ⟨l, some R⟩ env "dl" i).2
              = CallbackOutcome.downloadFailed b ∨
         (button_callback ⟨l, some R⟩ env "dl" i).2
              = CallbackOutcome.downloadNoLink b ∨
         ∃ u, (button_callback ⟨l, some R⟩ env "dl" i).2
              = CallbackOutcome.downloadLink b u)) ∧
    (¬(-(R.length : Int) ≤ i ∧ i < (R.length : Int)) →
      (button_callback ⟨l, some R⟩ env "book" i).2
          = CallbackOutcome.errorCaught ∧
      (button_callback ⟨l, some R⟩ env "dl" i).2
          = CallbackOutcome.errorCaught) := by
  have hE : R.isEmpty = false := by
    cases R with
    | nil => exact absurd rfl hR
    | cons x xs => rfl
  constructor
  · intro hin
    obtain ⟨b, hb⟩ := pyIndex_exists_of_in_range R i hin
    refine ⟨b, hb, ?_, ?_⟩
    · simp [button_callback, hE, hb]
    · cases hres : (safe_zlib_request env.fetchOp env.loginEnv.1 env.loginEnv.2
          (⟨l, some R⟩ : BotState Book) max_retries).result with
      | ok fb =>
        by_cases hu : fb.download_url.getD "" = ""
        · right; left; simp [button_callback, hE, hb, hres, hu]
        · right; right
          refine ⟨fb.download_url.getD "", ?_⟩
          simp [button_callback, hE, hb, hres, hu]
      | raised k id => left; simp [button_callback, hE, hb, hres]
      | maxRetriesExc => left; simp [button_callback, hE, hb, hres]
  · intro hout
    have hnone : pyIndex R i = none := by
      rw [pyIndex_eq_none_iff]
      by_cases hlow : -(R.length : Int) ≤ i
      · by_cases hhigh : i < (R.length : Int)
        · exact absurd ⟨hlow, hhigh⟩ hout
        · right; omega
      · left; omega
    constructor <;> simp [button_callback, hE, hnone]

/-- Witness for `C2_selection_range`. -/
theorem C2_selection_range_witness :
    (button_callback ⟨some 1, some [bookA]⟩ benv0 "book" 0).2
        = CallbackOutcome.described bookA := by
  obtain ⟨b, hb, hdesc, -⟩ :=
    (C2_selection_range (some 1) [bookA] benv0 0 (by decide)).1 (by decide)
  have h0 : pyIndex [bookA] (0 : Int) = some bookA := rfl
  have hba : b = bookA := Option.some.inj (h0.symm.trans hb).symm
  rw [hba] at hdesc
  exact hdesc

/-- C3 counterexample: a search returning zero records DOES write the
Result Cache — the previously cached one-record set is replaced by the
empty list — even though the user gets the no-results reply and the
conversation ends. -/
theorem C3_counterexample :
    (handle_search_query ⟨some 1, some [bookA]⟩ envEmpty "q").state.current_results
        = some [] ∧
    (handle_search_query ⟨some 1, some [bookA]⟩ envEmpty "q").state.current_results
        ≠ (⟨some 1, some [bookA]⟩ : BotState Book).current_results ∧
    (handle_search_query ⟨some 1, some [bookA]⟩ envEmpty "q").replies
        = [Reply.searching "q", Reply.noResults] ∧
    (handle_search_query ⟨some 1, some [bookA]⟩ envEmpty "q").ret
        = ConversationHandler.END := by
  refine ⟨?_, ?_, ?_, ?_⟩ <;> decide

/-- C3 (amended): a search whose processed result list is empty yields the
no-results (EmptyResult) reply and returns the conversation to idle, but it
overwrites the Result Cache with the empty result set: the session's
previously cached ResultSet is cleared by the assignment performed before
the emptiness check. -/
theorem C3_empty_search (s : BotState Book) (env : SearchEnv) (q : String)
    (hl : env.loginEnv.2 = true) (hs : env.searchOp 0 = AttemptResult.ok ())
    (hn : env.nextOp 0 = AttemptResult.ok ())
    (he : process_book_results env.rawResults = []) :
    (handle_search_query s env q).ret = ConversationHandler.END ∧
    (handle_search_query s env q).replies = [Reply.searching q, Reply.noResults] ∧
    (handle_search_query s env q).state.current_results = some [] ∧
    (handle_download_query s env q).ret = ConversationHandler.END ∧
    (handle_download_query s env q).replies = [Reply.searching q, Reply.noResults] ∧
    (handle_download_query s env q).state.current_results = some [] := by
  have h1 := handle_search_query_success s env q hl hs hn
  have h2 := handle_download_query_success s env q hl hs hn
  rw [he] at h1 h2
  simp [h1, h2]

/-- Witness for `C3_empty_search`. -/
theorem C3_empty_search_witness :
    (handle_search_query ⟨some 1, some [bookA]⟩ envEmpty "q").state.current_results
        = some [] :=
  (C3_empty_search ⟨some 1, some [bookA]⟩ envEmpty "q" rfl rfl rfl rfl).2.2.1

/-- C4 counterexample: the Result Cache is NOT per-session.  A search
performed by session 1 changes the cached ResultSet, and a describe
selection made by session 2 (which did nothing) now resolves against
session 1's new records, because every session shares the single bot
instance's `current_results`. -/
theorem C4_counterexample :
    (dispatch_search_text sys0 1 envB "q").1.bot.current_results
        ≠ sys0.bot.current_results ∧
    (button_callback (dispatch_search_text sys0 1 envB "q").1.bot benv0
        "book" 0).2 = CallbackOutcome.described bookB := by
  constructor
  · decide
  · decide

/-- C4 (amended): only the conversational state is per-session — a search
dispatched by session `sid` leaves every other session's conversation state
unchanged — while the Result Cache and the remote handle live on the single
shared bot instance: after `sid`'s successful search, the cache every
session's selections resolve against is `sid`'s new result list. -/
theorem C4_shared_cache (sys : System) (sid sid2 : Nat) (env : SearchEnv)
    (q : String) (h : sid2 ≠ sid) (hl : env.loginEnv.2 = true)
    (hs : env.searchOp 0 = AttemptResult.ok ())
    (hn : env.nextOp 0 = AttemptResult.ok ()) :
    (dispatch_search_text sys sid env q).1.conv sid2 = sys.conv sid2 ∧
    (dispatch_search_text sys sid env q).1.bot.current_results
        = some (process_book_results env.rawResults) := by
  constructor
  · simp [dispatch_search_text, h]
  · simp [dispatch_search_text,
      handle_search_query_success sys.bot env q hl hs hn]

/-- Witness for `C4_shared_cache`. -/
theorem C4_shared_cache_witness :
    (dispatch_search_text sys0 1 envB "q").1.conv 2 = ConversationHandler.END ∧
    (dispatch_search_text sys0 1 envB "q").1.bot.current_results
        = some [bookB] := by
  have h := C4_shared_cache sys0 1 2 envB "q" (by decide) rfl rfl rfl
  exact ⟨h.1, h.2⟩

/-- C7 counterexample: a session with an established handle (`some 7`) that
performs a search still triggers a login call — `handle_search_query`
invokes `login_to_zlib` unconditionally — and the handle is replaced by a
fresh one, refuting "login only when the session has no handle; an
existing handle is reused without a new login". -/
theorem C7_counterexample :
    (⟨some 7, none⟩ : BotState Book).lib = some 7 ∧
    (handle_search_query ⟨some 7, none⟩ envB "q").logins = 1 ∧
    (handle_search_query ⟨some 7, none⟩ envB "q").state.lib = some 8 := by
  refine ⟨rfl, ?_, ?_⟩ <;> decide

/-- C7 (amended): the retry wrapper `safe_zlib_request` is lazy — when the
session already holds a handle it performs no login and leaves the state
untouched (this covers the fetch path of the download button) — but both
query handlers unconditionally perform exactly one `login_to_zlib` call per
run, replacing the handle, whether or not one was established. -/
theorem C7_lazy_login_in_executor (op : Nat → AttemptResult α) (nh : Nat)
    (ls : Bool) (s : BotState Book) (n h : Nat) (hlib : s.lib = some h)
    (s2 : BotState Book) (env : SearchEnv) (q : String) :
    (safe_zlib_request op nh ls s n).logins = 0 ∧
    (safe_zlib_request op nh ls s n).state = s ∧
    (handle_search_query s2 env q).logins = 1 ∧
    (handle_download_query s2 env q).logins = 1 := by
  refine ⟨(safe_lib_some op nh ls s n h hlib).2,
    (safe_lib_some op nh ls s n h hlib).1, ?_, ?_⟩
  · rcases handle_search_query_shape s2 env q with hsh | hsh | hsh | hsh <;>
      rw [hsh]
  · rcases handle_download_query_shape s2 env q with hsh | hsh | hsh | hsh <;>
      rw [hsh]

/-- Witness for `C7_lazy_login_in_executor`. -/
theorem C7_lazy_login_in_executor_witness :
    (safe_zlib_request (α := Unit) (β := Book) (fun _ => AttemptResult.ok ())
        5 true ⟨some 3, none⟩ max_retries).logins = 0 ∧
    (safe_zlib_request (α := Unit) (β := Book) (fun _ => AttemptResult.ok ())
        5 true ⟨some 3, none⟩ max_retries).state = ⟨some 3, none⟩ ∧
    (handle_search_query ⟨some 3, none⟩ envB "q").logins = 1 ∧
    (handle_download_query ⟨some 3, none⟩ envB "q").logins = 1 :=
  C7_lazy_login_in_executor (fun _ => AttemptResult.ok ()) 5 true
    ⟨some 3, none⟩ max_retries 3 rfl ⟨some 3, none⟩ envB "q"

/-- C10: when a query handler fails before results are retrieved — signalled
by the connection-failed or search-failed reply — the previously cached
ResultSet is left unchanged, and a describe selection resolves exactly as it
would have against the old cache. -/
theorem C10_failed_search_keeps_cache (s : BotState Book) (env : SearchEnv)
    (q : String) :
    ((Reply.connectFailed ∈ (handle_search_query s env q).replies ∨
      Reply.searchFailed ∈ (handle_search_query s env q).replies) →
      (handle_search_query s env q).state.current_results
          = s.current_results) ∧
    ((Reply.connectFailed ∈ (handle_download_query s env q).replies ∨
      Reply.searchFailed ∈ (handle_download_query s env q).replies) →
      (handle_download_query s env q).state.current_results
          = s.current_results) ∧
    (∀ s2 : BotState Book, ∀ benv benv2 : ButtonEnv, ∀ i : Int,
      s2.current_results = s.current_results →
      (button_callback s2 benv "book" i).2
          = (button_callback s benv2 "book" i).2) := by
  refine ⟨?_, ?_, ?_⟩
  · rcases handle_search_query_shape s env q with hsh | hsh | hsh | hsh <;>
      rw [hsh] <;> intro hm
    · rfl
    · rfl
    · simp at hm
    · simp at hm
  · rcases handle_download_query_shape s env q with hsh | hsh | hsh | hsh <;>
      rw [hsh] <;> intro hm
    · rfl
    · rfl
    · simp at hm
    · simp at hm
  · intro s2 benv benv2 i hcache
    exact button_described_eq_of_results_eq s2 s benv benv2 i hcache

/-- Witness for `C10_failed_search_keeps_cache`. -/
theorem C10_failed_search_keeps_cache_witness :
    (handle_search_query ⟨some 1, some [bookA]⟩ envLoginFail "x").state.current_results
        = some [bookA] :=
  (C10_failed_search_keeps_cache ⟨some 1, some [bookA]⟩ envLoginFail "x").1
    (Or.inl (by decide))
